import Mathlib

/-!
Shallow embedding of the TAPLE REST gateway handlers (rest/src/handlers.rs).

Each Rust handler is embedded as a pure Lean function. The asynchronous
domain engine (`NodeAPI`) is modelled as a structure of pure functions
returning `Except ApiError _`; a handler returns its wire outcome together
with the list of domain-engine calls it dispatched (the Rust code awaits at
most one such call per request). JSON serialization of a success payload is
modelled as the identity: a wire success carries the typed value itself.
A Rust `.unwrap()` panic is modelled by the `RunOutcome.crash` constructor
where it is reachable.
-/

namespace Taple

/-- Content-addressed identifier (commons DigestIdentifier), carrying its
digest string; `digest.isEmpty` embeds `digest.is_empty()`. -/
structure DigestIdentifier where
  digest : String
deriving DecidableEq

/-- Event-request payload variant: full JSON replacement or a JSON-patch
delta (spec section 3; commons models, external to src/). -/
inductive Payload where
  | Json (data : String)
  | JsonPatch (data : String)
deriving DecidableEq

/-- Tagged event-request variant (spec section 3): Create initializes a
subject, State mutates an existing one. -/
inductive EventRequestType where
  | Create (governance_id : String) (schema_id : String) (nameSpace : String) (payload : Payload)
  | State (subject_id : String) (payload : Payload)
deriving DecidableEq

/-- Signature content: signer identity, hash of the signed content and a
timestamp (spec section 3). -/
structure SignatureContent where
  signer : String
  event_content_hash : String
  timestamp : Nat
deriving DecidableEq

/-- Cryptographic signature: content plus raw signature material
(spec section 3). -/
structure Signature where
  content : SignatureContent
  signature : String
deriving DecidableEq

/-- Fully-formed (signed and timestamped) event request, as stored inside
events and as forwarded by the external-request path (spec section 3). -/
structure EventRequest where
  request : EventRequestType
  timestamp : Nat
  signature : Signature
deriving DecidableEq

/-- Event content: the subject it applies to, the request that produced it,
its serial number and hash-chain fields (spec section 3). -/
structure EventContent where
  subject_id : String
  event_request : EventRequest
  sn : Nat
  previous_hash : String
  state_hash : String
deriving DecidableEq

/-- Immutable ledger event: content plus the node's signature
(spec section 3). -/
structure Event where
  event_content : EventContent
  signature : Signature
deriving DecidableEq

/-- Subject identity record (spec section 3); `governance_id` is empty iff
the subject is itself a governance. -/
structure SubjectData where
  subject_id : String
  governance_id : DigestIdentifier
  sn : Nat
  public_key : String
  nameSpace : String
  schema_id : String
  owner : String
  properties : String
deriving DecidableEq

/-- Acknowledgement data returned by the request-submission operations
(shape taken from the documented response example in handlers.rs). -/
structure RequestData where
  request : EventRequestType
  request_id : String
  timestamp : Nat
  subject_id : String
  sn : Nat
deriving DecidableEq

/-- Approval decision (commons Acceptance). -/
inductive Acceptance where
  | Accept
  | Reject
deriving DecidableEq

/-- Wire body of PUT /approvals/{id}: Accept or Reject. -/
inductive PutVoteBody where
  | Accept
  | Reject
deriving DecidableEq

/-- Embeds the `let acceptance = match body { ... }` translation at the top
of put_approval_handler (handlers.rs lines 393-396). -/
def PutVoteBody.toAcceptance : PutVoteBody → Acceptance
  | PutVoteBody.Accept => Acceptance.Accept
  | PutVoteBody.Reject => Acceptance.Reject

/-- Body of POST /requests. The body's inner request is modelled directly
with the domain request type: the `body.request.into()` conversion lives in
bodys.rs, which is not under src/, and per the spec it is the structural
embedding of the wire request into the domain request, so it is modelled as
the identity. -/
structure PostEventRequestBody where
  request : EventRequestType
  timestamp : Option Nat
  signature : Option Signature
deriving DecidableEq

/-- Body of POST /subjects/{id}/events/simulated. -/
structure PostEventBody where
  payload : Payload
deriving DecidableEq

/-- Pagination parameters of GET /subjects (querys.rs; field `from` is a
Lean keyword, embedded as `fro`). -/
structure GetAllSubjectsQuery where
  fro : Option Nat
  quantity : Option Nat
deriving DecidableEq

/-- Pagination parameters of GET /subjects/{id}/events; `from` is a signed
64-bit index at the domain interface, embedded as `fro : Option Int`. -/
structure GetEventsQuery where
  fro : Option Int
  quantity : Option Nat
deriving DecidableEq

/-- Pagination parameters of GET /subjects/{id}/events/{sn}/signatures. -/
structure GetSignaturesQuery where
  fro : Option Nat
  quantity : Option Nat
deriving DecidableEq

/-- Domain-engine error type (core ApiError) as consumed by handlers.rs:
the four variants the mapper names, plus `UnexpectedError`, which stands
for every remaining variant of the external enum (they are all handled by
the catch-all arm of handle_data, line 1034). -/
inductive ApiError where
  | InvalidParameters
  | NotFound (reason : String)
  | EventCreationError (source : String)
  | VoteNotNeeded (msg : String)
  | UnexpectedError (info : String)
deriving DecidableEq

/-- Wire error taxonomy (rest error::Error as used by handlers.rs). -/
inductive Error where
  | InvalidParameters
  | NotFound
  | RequestError (msg : String)
  | NotEnoughPermissions
  | ExecutionError
deriving DecidableEq

/-- Error arms of handle_data (handlers.rs lines 1028-1034): the fixed map
from a domain error to a wire failure category. -/
def mapApiError : ApiError → Error
  | ApiError.InvalidParameters => Error.InvalidParameters
  | ApiError.NotFound _ => Error.NotFound
  | ApiError.EventCreationError _ => Error.NotEnoughPermissions
  | ApiError.VoteNotNeeded msg => Error.RequestError msg
  | ApiError.UnexpectedError _ => Error.ExecutionError

/-- handle_data (handlers.rs lines 1025-1036): a domain success becomes the
wire payload, a domain error is classified by `mapApiError`. -/
def handle_data {α : Type} (data : Except ApiError α) : Except Error α :=
  match data with
  | Except.ok d => Except.ok d
  | Except.error e => Except.error (mapApiError e)

/-- Abstract domain engine (core NodeAPI): one pure function per operation
the embedded handlers dispatch, each returning Except ApiError of the
operation's typed result. -/
structure NodeAPI where
  get_subject : String → Except ApiError SubjectData
  get_all_subjects : String → Option Nat → Option Nat → Except ApiError (List SubjectData)
  create_request : EventRequestType → Except ApiError RequestData
  external_request : EventRequest → Except ApiError RequestData
  get_single_request : String → Except ApiError EventRequest
  approval_request : String → Acceptance → Except ApiError Unit
  get_event_of_subject : String → Option Int → Option Nat → Except ApiError (List Event)
  simulate_event : String → Payload → Except ApiError SubjectData
  get_signatures : String → Nat → Option Nat → Option Nat → Except ApiError (List Signature)

/-- Record of one dispatched domain-engine call, with its arguments; a
handler's trace is the list of calls it awaited, in order. -/
inductive DomainCall where
  | getSubject (id : String)
  | getAllSubjects (nameSpace : String) (fro : Option Nat) (quantity : Option Nat)
  | createRequest (req : EventRequestType)
  | externalRequest (req : EventRequest)
  | getSingleRequest (id : String)
  | approvalRequest (id : String) (acceptance : Acceptance)
  | getEventOfSubject (id : String) (fro : Option Int) (quantity : Option Nat)
  | simulateEvent (id : String) (payload : Payload)
  | getSignatures (id : String) (sn : Nat) (fro : Option Nat) (quantity : Option Nat)
deriving DecidableEq

/-- Rust `sn as i64` on a u64 value: two's-complement reinterpretation of
`sn` (handlers.rs lines 909 and 1013). -/
def u64_as_i64 (sn : Nat) : Int :=
  if sn < 2 ^ 63 then (sn : Int) else (sn : Int) - 2 ^ 64

/-- Outcome of running a handler whose Rust body contains a reachable
`.unwrap()` panic: either it crashes or it produces a value. -/
inductive RunOutcome (α : Type) where
  | crash
  | value (a : α)
deriving DecidableEq

/-- get_subject_handler (handlers.rs lines 44-56): reject the empty id
before dispatch, otherwise forward to get_subject and classify. -/
def get_subject_handler (id : String) (node : NodeAPI) :
    Except Error SubjectData × List DomainCall :=
  if id.isEmpty then
    (Except.error (Error.RequestError "Error in query parameter"), [])
  else
    (handle_data (node.get_subject id), [DomainCall.getSubject id])

/-- get_all_subjects_handler (handlers.rs lines 101-117): dispatches
get_all_subjects with the hard-coded namespace string and the caller's
pagination window. (The inner convert_to_usize helper of the Rust body is
dead code: it is never called.) -/
def get_all_subjects_handler (node : NodeAPI) (parameters : GetAllSubjectsQuery) :
    Except Error (List SubjectData) × List DomainCall :=
  (handle_data (node.get_all_subjects "namespace1" parameters.fro parameters.quantity),
   [DomainCall.getAllSubjects "namespace1" parameters.fro parameters.quantity])

/-- post_event_request_handler (handlers.rs lines 227-246). The
`body.try_into()` conversion to an external request lives in bodys.rs (not
under src/) and may fail structurally; it is passed in as the function
`tryIntoExternal`, so the branch structure proved about this definition
holds for every conversion. -/
def post_event_request_handler (node : NodeAPI) (body : PostEventRequestBody)
    (tryIntoExternal : PostEventRequestBody → Option EventRequest) :
    Except Error RequestData × List DomainCall :=
  if body.signature.isNone && body.timestamp.isNone then
    (handle_data (node.create_request body.request), [DomainCall.createRequest body.request])
  else if body.signature.isSome && body.timestamp.isSome then
    match tryIntoExternal body with
    | some external_request =>
        (handle_data (node.external_request external_request),
         [DomainCall.externalRequest external_request])
    | none =>
        (handle_data (Except.error ApiError.InvalidParameters : Except ApiError RequestData), [])
  else
    (handle_data (Except.error ApiError.InvalidParameters : Except ApiError RequestData), [])

/-- get_single_request_handler (handlers.rs lines 356-363): forwards the id
to get_single_request with no emptiness check. -/
def get_single_request_handler (id : String) (node : NodeAPI) :
    Except Error EventRequest × List DomainCall :=
  (handle_data (node.get_single_request id), [DomainCall.getSingleRequest id])

/-- put_approval_handler (handlers.rs lines 387-399): translates the vote
body and forwards it with the id, with no emptiness check. -/
def put_approval_handler (request_id : String) (node : NodeAPI) (body : PutVoteBody) :
    Except Error Unit × List DomainCall :=
  (handle_data (node.approval_request request_id body.toAcceptance),
   [DomainCall.approvalRequest request_id body.toAcceptance])

/-- get_governance_handler (handlers.rs lines 431-448): reject the empty id,
fetch the subject, and replace a successful result whose governance_id
digest is non-empty by a NotFound domain error before classification. -/
def get_governance_handler (id : String) (node : NodeAPI) :
    Except Error SubjectData × List DomainCall :=
  if id.isEmpty then
    (Except.error (Error.RequestError "Error in query parameter"), [])
  else
    let response := node.get_subject id
    let response :=
      match response with
      | Except.ok s =>
          if !s.governance_id.digest.isEmpty then
            Except.error (ApiError.NotFound "This ID does not belong to a governance")
          else
            Except.ok s
      | Except.error e => Except.error e
    (handle_data response, [DomainCall.getSubject id])

/-- get_events_of_subject_handler (handlers.rs lines 632-647): reject the
empty id, otherwise forward id and pagination to get_event_of_subject. -/
def get_events_of_subject_handler (id : String) (node : NodeAPI)
    (parameters : GetEventsQuery) :
    Except Error (List Event) × List DomainCall :=
  if id.isEmpty then
    (Except.error (Error.RequestError "Error in query parameter"), [])
  else
    (handle_data (node.get_event_of_subject id parameters.fro parameters.quantity),
     [DomainCall.getEventOfSubject id parameters.fro parameters.quantity])

/-- post_event_simulated_handler (handlers.rs lines 815-829): reject the
empty id, otherwise forward id and payload to simulate_event. -/
def post_event_simulated_handler (id : String) (node : NodeAPI) (body : PostEventBody) :
    Except Error SubjectData × List DomainCall :=
  if id.isEmpty then
    (Except.error (Error.RequestError "Error in query parameter"), [])
  else
    (handle_data (node.simulate_event id body.payload), [DomainCall.simulateEvent id body.payload])

/-- get_event_handler (handlers.rs lines 896-919): reject the empty id,
dispatch get_event_of_subject with from = sn as i64 and quantity = 1; on a
successful list, Vec::pop takes the last element (None on the empty list,
mapped to the NotFound rejection); a domain error goes through the error
arms of handle_data. -/
def get_event_handler (id : String) (sn : Nat) (node : NodeAPI) :
    Except Error Event × List DomainCall :=
  if id.isEmpty then
    (Except.error (Error.RequestError "Error in query parameter"), [])
  else
    match node.get_event_of_subject id (some (u64_as_i64 sn)) (some 1) with
    | Except.ok events =>
        match events.getLast? with
        | none =>
            (Except.error Error.NotFound,
             [DomainCall.getEventOfSubject id (some (u64_as_i64 sn)) (some 1)])
        | some event =>
            (Except.ok event,
             [DomainCall.getEventOfSubject id (some (u64_as_i64 sn)) (some 1)])
    | Except.error e =>
        (Except.error (mapApiError e),
         [DomainCall.getEventOfSubject id (some (u64_as_i64 sn)) (some 1)])

/-- get_signatures_handler (handlers.rs lines 954-970): reject the empty id,
otherwise forward id, sn and pagination to get_signatures. -/
def get_signatures_handler (id : String) (sn : Nat) (node : NodeAPI)
    (parameters : GetSignaturesQuery) :
    Except Error (List Signature) × List DomainCall :=
  if id.isEmpty then
    (Except.error (Error.RequestError "Error in query parameter"), [])
  else
    (handle_data (node.get_signatures id sn parameters.fro parameters.quantity),
     [DomainCall.getSignatures id sn parameters.fro parameters.quantity])

/-- get_event_properties_handler (handlers.rs lines 1001-1023): reject the
empty id, dispatch get_event_of_subject with from = sn as i64 and
quantity = 1; on success the Rust body runs `.pop().unwrap()`, which
panics on an empty list (modelled as crash) and otherwise projects the
last event's request; on any domain error it returns ExecutionError
directly, without going through handle_data. -/
def get_event_properties_handler (id : String) (sn : Nat) (node : NodeAPI) :
    RunOutcome (Except Error EventRequestType) × List DomainCall :=
  if id.isEmpty then
    (RunOutcome.value (Except.error (Error.RequestError "Error in query parameter")), [])
  else
    match node.get_event_of_subject id (some (u64_as_i64 sn)) (some 1) with
    | Except.ok events =>
        match events.getLast? with
        | none =>
            (RunOutcome.crash,
             [DomainCall.getEventOfSubject id (some (u64_as_i64 sn)) (some 1)])
        | some event =>
            (RunOutcome.value (Except.ok event.event_content.event_request.request),
             [DomainCall.getEventOfSubject id (some (u64_as_i64 sn)) (some 1)])
    | Except.error _ =>
        (RunOutcome.value (Except.error Error.ExecutionError),
         [DomainCall.getEventOfSubject id (some (u64_as_i64 sn)) (some 1)])

/-- Sample payload used by the concrete-engine instances below. -/
def samplePayload : Payload := Payload.Json "\x7b\x7d"

/-- Sample domain event request used by the concrete-engine instances. -/
def sampleRequestType : EventRequestType := EventRequestType.State "JSubject" samplePayload

/-- Sample signature used by the concrete-engine instances. -/
def sampleSignature : Signature :=
  { content := { signer := "EKey", event_content_hash := "JHash", timestamp := 1671544386 }
    signature := "SESig" }

/-- Sample fully-formed event request used by the concrete-engine
instances. -/
def sampleEventRequest : EventRequest :=
  { request := sampleRequestType, timestamp := 1671544386, signature := sampleSignature }

/-- Sample ledger event used by the concrete-engine instances. -/
def sampleEvent : Event :=
  { event_content :=
      { subject_id := "JSubject", event_request := sampleEventRequest, sn := 0
        previous_hash := "", state_hash := "JState" }
    signature := sampleSignature }

/-- Sample subject record used by the concrete-engine instances. -/
def sampleSubject : SubjectData :=
  { subject_id := "JSubject", governance_id := ⟨""⟩, sn := 0, public_key := "EKey"
    nameSpace := "namespace1", schema_id := "Prueba", owner := "EOwner", properties := "\x7b\x7d" }

/-- Sample request acknowledgement used by the concrete-engine instances. -/
def sampleRequestData : RequestData :=
  { request := sampleRequestType, request_id := "JReq", timestamp := 1671705355
    subject_id := "JSubject", sn := 0 }

/-- Concrete engine on which every operation succeeds with a fixed value. -/
def nodeOk : NodeAPI :=
  { get_subject := fun _ => Except.ok sampleSubject
    get_all_subjects := fun _ _ _ => Except.ok [sampleSubject]
    create_request := fun _ => Except.ok sampleRequestData
    external_request := fun _ => Except.ok sampleRequestData
    get_single_request := fun _ => Except.ok sampleEventRequest
    approval_request := fun _ _ => Except.ok ()
    get_event_of_subject := fun _ _ _ => Except.ok [sampleEvent]
    simulate_event := fun _ _ => Except.ok sampleSubject
    get_signatures := fun _ _ _ _ => Except.ok [sampleSignature] }

/-- Concrete engine whose event-list query fails with a domain NotFound. -/
def nodeEventsNotFound : NodeAPI :=
  { nodeOk with get_event_of_subject := fun _ _ _ => Except.error (ApiError.NotFound "subject not found") }

/-- Concrete engine whose event-list query succeeds with an empty list. -/
def nodeEmptyEvents : NodeAPI :=
  { nodeOk with get_event_of_subject := fun _ _ _ => Except.ok [] }

/-- Concrete engine whose vote operation fails with a domain VoteNotNeeded. -/
def nodeVoteNotNeeded : NodeAPI :=
  { nodeOk with approval_request := fun _ _ => Except.error (ApiError.VoteNotNeeded "The vote is not needed") }

/-- Sample subject whose governance_id digest is non-empty: an ordinary
(non-governance) subject. -/
def childSubject : SubjectData :=
  { sampleSubject with governance_id := ⟨"JGovId"⟩ }

/-- Concrete engine whose subject read returns a non-governance subject. -/
def nodeChildSubject : NodeAPI :=
  { nodeOk with get_subject := fun _ => Except.ok childSubject }

/-- C1: for every event-request submission body, the handler follows the
origin table: neither signature nor timestamp present dispatches exactly
the create-local-request operation on the bare request; both present
dispatches the external-request operation on the converted request, or
fails with InvalidParameters (and no domain call) when the structural
conversion fails; exactly one present fails with InvalidParameters with no
domain call. -/
theorem post_event_request_origin_table (node : NodeAPI) (body : PostEventRequestBody)
    (tryIntoExternal : PostEventRequestBody → Option EventRequest) :
    (body.signature = none → body.timestamp = none →
        post_event_request_handler node body tryIntoExternal =
          (handle_data (node.create_request body.request),
           [DomainCall.createRequest body.request]))
  ∧ (body.signature.isSome = true → body.timestamp.isSome = true →
        (∀ ext, tryIntoExternal body = some ext →
            post_event_request_handler node body tryIntoExternal =
              (handle_data (node.external_request ext),
               [DomainCall.externalRequest ext]))
      ∧ (tryIntoExternal body = none →
            post_event_request_handler node body tryIntoExternal =
              (Except.error Error.InvalidParameters, [])))
  ∧ (body.signature.isSome ≠ body.timestamp.isSome →
        post_event_request_handler node body tryIntoExternal =
          (Except.error Error.InvalidParameters, [])) := by
  rcases body with ⟨req, ts, sig⟩
  refine ⟨?_, ?_, ?_⟩
  · rintro rfl rfl
    rfl
  · intro hsig hts
    cases sig with
    | none => exact absurd hsig (by simp)
    | some s =>
      cases ts with
      | none => exact absurd hts (by simp)
      | some t =>
        constructor
        · intro ext hext
          simp [post_event_request_handler, hext]
        · intro hnone
          simp [post_event_request_handler, hnone, handle_data, mapApiError]
  · intro hne
    cases sig <;> cases ts
    · exact absurd rfl hne
    · simp [post_event_request_handler, handle_data, mapApiError]
    · simp [post_event_request_handler, handle_data, mapApiError]
    · exact absurd rfl hne

/-- Sample submission body carrying neither a signature nor a timestamp. -/
def sampleBodyLocal : PostEventRequestBody :=
  { request := sampleRequestType, timestamp := none, signature := none }

/-- Witness for C1: the self-originated row of the origin table at a
concrete body and engine. -/
theorem post_event_request_origin_table_witness :
    post_event_request_handler nodeOk sampleBodyLocal (fun _ => none)
      = (Except.ok sampleRequestData, [DomainCall.createRequest sampleRequestType]) :=
  (post_event_request_origin_table nodeOk sampleBodyLocal (fun _ => none)).1 rfl rfl

/-- C2 counterexample: when the domain event-list query fails with a domain
NotFound (so it does not succeed with an empty list), the single-event
endpoint still fails with the wire NotFound category, refuting the claimed
"exactly when". -/
theorem get_event_notfound_counterexample :
    (get_event_handler "JSubject" 0 nodeEventsNotFound).1 = Except.error Error.NotFound
  ∧ nodeEventsNotFound.get_event_of_subject "JSubject" (some ((0 : Nat) : Int)) (some 1)
      ≠ Except.ok [] := by
  refine ⟨rfl, fun h => ?_⟩
  exact Except.noConfusion h

/-- C2 amended: with a non-empty id and sn below 2^63, if the event-list
query with from = sn and quantity = 1 succeeds with a singleton, the
single-event endpoint returns its sole element; among successful list
queries it fails with NotFound exactly on the empty list; a failing list
query is reclassified through the standard error mapper (so a domain
NotFound also surfaces as wire NotFound). -/
theorem get_event_refines_list_query (node : NodeAPI) (id : String) (sn : Nat)
    (hid : id.isEmpty = false) (hsn : sn < 2 ^ 63) :
    (∀ e, node.get_event_of_subject id (some (sn : Int)) (some 1) = Except.ok [e] →
        (get_event_handler id sn node).1 = Except.ok e)
  ∧ (∀ l, node.get_event_of_subject id (some (sn : Int)) (some 1) = Except.ok l →
        ((get_event_handler id sn node).1 = Except.error Error.NotFound ↔ l = []))
  ∧ (∀ er, node.get_event_of_subject id (some (sn : Int)) (some 1) = Except.error er →
        (get_event_handler id sn node).1 = Except.error (mapApiError er)) := by
  have hcast : u64_as_i64 sn = (sn : Int) := by
    simp only [u64_as_i64]
    rw [if_pos hsn]
  refine ⟨?_, ?_, ?_⟩
  · intro e he
    simp [get_event_handler, hid, hcast, he]
  · intro l hl
    cases l with
    | nil => simp [get_event_handler, hid, hcast, hl]
    | cons a t =>
      cases h2 : (a :: t).getLast? with
      | none => exact absurd h2 (by simp [List.getLast?_eq_none_iff])
      | some x => simp [get_event_handler, hid, hcast, hl, h2]
  · intro er her
    simp [get_event_handler, hid, hcast, her]

/-- Witness for C2 amended: on an engine whose list query returns one
event, the single-event endpoint returns that event. -/
theorem get_event_refines_list_query_witness :
    (get_event_handler "JSubject" 0 nodeOk).1 = Except.ok sampleEvent :=
  (get_event_refines_list_query nodeOk "JSubject" 0 (by decide) (by decide)).1 sampleEvent rfl

/-- C3: for a non-empty id whose subject read succeeds, the governance read
returns the fetched subject when its governance_id is empty, and fails with
wire NotFound when it is non-empty, while the plain subject read of the
same id returns the subject unchanged. -/
theorem governance_read_narrowing (node : NodeAPI) (id : String) (s : SubjectData)
    (hid : id.isEmpty = false) (hs : node.get_subject id = Except.ok s) :
    (s.governance_id.digest.isEmpty = true →
        get_governance_handler id node = (Except.ok s, [DomainCall.getSubject id]))
  ∧ (s.governance_id.digest.isEmpty = false →
        (get_governance_handler id node).1 = Except.error Error.NotFound
      ∧ (get_subject_handler id node).1 = Except.ok s) := by
  constructor
  · intro hgov
    simp [get_governance_handler, hid, hs, hgov, handle_data]
  · intro hgov
    constructor
    · simp [get_governance_handler, hid, hs, hgov, handle_data, mapApiError]
    · simp [get_subject_handler, hid, hs, handle_data]

/-- Witness for C3: both branches at concrete engines — a governance
subject is returned by the governance read, and a non-governance subject
yields NotFound there while the plain subject read returns it. -/
theorem governance_read_narrowing_witness :
    get_governance_handler "JGov" nodeOk = (Except.ok sampleSubject, [DomainCall.getSubject "JGov"])
  ∧ ((get_governance_handler "JChild" nodeChildSubject).1 = Except.error Error.NotFound
      ∧ (get_subject_handler "JChild" nodeChildSubject).1 = Except.ok childSubject) :=
  ⟨(governance_read_narrowing nodeOk "JGov" sampleSubject (by decide) rfl).1 rfl,
   (governance_read_narrowing nodeChildSubject "JChild" childSubject (by decide) rfl).2 rfl⟩

/-- C4 counterexample: with the empty id, GET /approvals/{id} and PUT
/approvals/{id} dispatch a domain call on the empty id and do not fail
with the RequestError category. -/
theorem approvals_empty_id_counterexample :
    (get_single_request_handler "" nodeOk).1 = Except.ok sampleEventRequest
  ∧ (get_single_request_handler "" nodeOk).2 = [DomainCall.getSingleRequest ""]
  ∧ (put_approval_handler "" nodeOk PutVoteBody.Reject).1 = Except.ok ()
  ∧ (put_approval_handler "" nodeOk PutVoteBody.Reject).2
      = [DomainCall.approvalRequest "" Acceptance.Reject] :=
  ⟨rfl, rfl, rfl, rfl⟩

/-- C4 amended: on the empty id, the seven endpoints that carry the guard
fail with RequestError and make no domain call, while GET /approvals/{id}
and PUT /approvals/{id} lack the guard and forward the empty id to the
domain engine. -/
theorem empty_id_guard_by_endpoint (node : NodeAPI) :
    get_subject_handler "" node
      = (Except.error (Error.RequestError "Error in query parameter"), [])
  ∧ get_governance_handler "" node
      = (Except.error (Error.RequestError "Error in query parameter"), [])
  ∧ (∀ q, get_events_of_subject_handler "" node q
      = (Except.error (Error.RequestError "Error in query parameter"), []))
  ∧ (∀ b, post_event_simulated_handler "" node b
      = (Except.error (Error.RequestError "Error in query parameter"), []))
  ∧ (∀ sn, get_event_handler "" sn node
      = (Except.error (Error.RequestError "Error in query parameter"), []))
  ∧ (∀ sn q, get_signatures_handler "" sn node q
      = (Except.error (Error.RequestError "Error in query parameter"), []))
  ∧ (∀ sn, get_event_properties_handler "" sn node
      = (RunOutcome.value (Except.error (Error.RequestError "Error in query parameter")), []))
  ∧ get_single_request_handler "" node
      = (handle_data (node.get_single_request ""), [DomainCall.getSingleRequest ""])
  ∧ (∀ b, put_approval_handler "" node b
      = (handle_data (node.approval_request "" b.toAcceptance),
         [DomainCall.approvalRequest "" b.toAcceptance])) :=
  ⟨rfl, rfl, fun _ => rfl, fun _ => rfl, fun _ => rfl, fun _ _ => rfl, fun _ => rfl, rfl,
   fun _ => rfl⟩

/-- C5: the error mapper is total — every domain error value produces
exactly one wire failure (and never a success or a failure of the mapper
itself), and every variant other than InvalidParameters, NotFound,
EventCreationError and VoteNotNeeded maps to ExecutionError. -/
theorem handle_data_total (e : ApiError) :
    (∃ w : Error, handle_data (Except.error e : Except ApiError Unit) = Except.error w)
  ∧ ((e ≠ ApiError.InvalidParameters ∧ (∀ s, e ≠ ApiError.NotFound s)
        ∧ (∀ s, e ≠ ApiError.EventCreationError s) ∧ (∀ s, e ≠ ApiError.VoteNotNeeded s)) →
      handle_data (Except.error e : Except ApiError Unit) = Except.error Error.ExecutionError) := by
  constructor
  · exact ⟨mapApiError e, rfl⟩
  · rintro ⟨h1, h2, h3, h4⟩
    cases e with
    | InvalidParameters => exact absurd rfl h1
    | NotFound s => exact absurd rfl (h2 s)
    | EventCreationError s => exact absurd rfl (h3 s)
    | VoteNotNeeded s => exact absurd rfl (h4 s)
    | UnexpectedError s => rfl

/-- Witness for C5: a variant outside the four named ones maps to
ExecutionError. -/
theorem handle_data_total_witness :
    handle_data (Except.error (ApiError.UnexpectedError "boom") : Except ApiError Unit)
      = Except.error Error.ExecutionError :=
  (handle_data_total (ApiError.UnexpectedError "boom")).2
    ⟨fun h => ApiError.noConfusion h, fun _ h => ApiError.noConfusion h,
     fun _ h => ApiError.noConfusion h, fun _ h => ApiError.noConfusion h⟩

/-- C6: the event-properties endpoint, on an engine whose list query
succeeds with the empty list, crashes (Vec::pop().unwrap() panics) instead
of failing with NotFound as the narrower contract requires. -/
theorem event_properties_crash_on_empty :
    get_event_properties_handler "JSubject" 0 nodeEmptyEvents
      = (RunOutcome.crash,
         [DomainCall.getEventOfSubject "JSubject" (some 0) (some 1)]) := rfl

/-- C7: the event-properties endpoint, on an engine whose list query fails
with a domain NotFound, returns the ExecutionError wire category rather
than reclassifying the failure to the NotFound wire category. -/
theorem event_properties_notfound_to_execution_error :
    (get_event_properties_handler "JSubject" 0 nodeEventsNotFound).1
      = RunOutcome.value (Except.error Error.ExecutionError) := rfl

/-- C8 counterexample: an error value returned by the domain engine — the
VoteNotNeeded failure of the vote operation — is mapped by the gateway to
the RequestError wire category. -/
theorem put_approval_vote_not_needed_counterexample :
    (put_approval_handler "JReq" nodeVoteNotNeeded PutVoteBody.Accept).1
      = Except.error (Error.RequestError "The vote is not needed") := rfl

/-- C8 amended: the domain VoteNotNeeded error is mapped to RequestError
with its message carried through; no other domain error value is ever
mapped to RequestError (so RequestError otherwise arises only from
gateway-local validation before any domain call). -/
theorem request_error_only_vote_not_needed (e : ApiError) :
    (∀ msg, mapApiError (ApiError.VoteNotNeeded msg) = Error.RequestError msg)
  ∧ ((∀ msg, e ≠ ApiError.VoteNotNeeded msg) →
      ∀ msg, mapApiError e ≠ Error.RequestError msg) := by
  refine ⟨fun msg => rfl, fun h msg => ?_⟩
  cases e with
  | VoteNotNeeded s => exact absurd rfl (h s)
  | InvalidParameters => exact fun hc => Error.noConfusion hc
  | NotFound s => exact fun hc => Error.noConfusion hc
  | EventCreationError s => exact fun hc => Error.noConfusion hc
  | UnexpectedError s => exact fun hc => Error.noConfusion hc

/-- Witness for C8 amended: the InvalidParameters domain error does not map
to RequestError. -/
theorem request_error_only_vote_not_needed_witness :
    mapApiError ApiError.InvalidParameters ≠ Error.RequestError "x" :=
  (request_error_only_vote_not_needed ApiError.InvalidParameters).2
    (fun _ h => ApiError.noConfusion h) "x"

/-- C9: every list-subjects request dispatches the domain query scoped to
the fixed namespace string "namespace1"; only the from and quantity fields
of the request influence the dispatched call. -/
theorem get_all_subjects_fixed_namespace (node : NodeAPI) (parameters : GetAllSubjectsQuery) :
    get_all_subjects_handler node parameters
      = (handle_data (node.get_all_subjects "namespace1" parameters.fro parameters.quantity),
         [DomainCall.getAllSubjects "namespace1" parameters.fro parameters.quantity]) := rfl

/-- C10: with a non-empty id, the single-event and event-properties
endpoints dispatch the list query with from = u64_as_i64 sn, and this
conversion is the identity for sn below 2^63 while for sn in
[2^63, 2^64) it yields sn - 2^64, a negative index. -/
theorem single_event_from_index_conversion (id : String) (sn : Nat) (node : NodeAPI)
    (hid : id.isEmpty = false) (hsn : sn < 2 ^ 64) :
    ((get_event_handler id sn node).2
        = [DomainCall.getEventOfSubject id (some (u64_as_i64 sn)) (some 1)]
      ∧ (get_event_properties_handler id sn node).2
        = [DomainCall.getEventOfSubject id (some (u64_as_i64 sn)) (some 1)])
  ∧ (sn < 2 ^ 63 → u64_as_i64 sn = (sn : Int))
  ∧ (2 ^ 63 ≤ sn → u64_as_i64 sn = (sn : Int) - 2 ^ 64 ∧ u64_as_i64 sn < 0) := by
  refine ⟨⟨?_, ?_⟩, ?_, ?_⟩
  · cases hq : node.get_event_of_subject id (some (u64_as_i64 sn)) (some 1) with
    | ok events =>
      cases hg : events.getLast? with
      | none => simp [get_event_handler, hid, hq, hg]
      | some x => simp [get_event_handler, hid, hq, hg]
    | error e => simp [get_event_handler, hid, hq]
  · cases hq : node.get_event_of_subject id (some (u64_as_i64 sn)) (some 1) with
    | ok events =>
      cases hg : events.getLast? with
      | none => simp [get_event_properties_handler, hid, hq, hg]
      | some x => simp [get_event_properties_handler, hid, hq, hg]
    | error e => simp [get_event_properties_handler, hid, hq]
  · intro h
    simp only [u64_as_i64]
    rw [if_pos h]
  · intro h
    have hlt : ¬ sn < 2 ^ 63 := not_lt.mpr h
    have heq : u64_as_i64 sn = (sn : Int) - 2 ^ 64 := by
      simp only [u64_as_i64]
      rw [if_neg hlt]
    refine ⟨heq, ?_⟩
    rw [heq]
    omega

/-- Witness for C10: at sn = 2^63 the dispatched from index is the negative
value 2^63 - 2^64. -/
theorem single_event_from_index_conversion_witness :
    u64_as_i64 (2 ^ 63) = ((2 ^ 63 : Nat) : Int) - 2 ^ 64 ∧ u64_as_i64 (2 ^ 63) < 0 :=
  (single_event_from_index_conversion "JSubject" (2 ^ 63) nodeOk (by decide) (by decide)).2.2
    (le_refl _)

end Taple
